import Mathlib

/-
Verification of the dbg-rs facade (src/dbg.rs, src/error.rs) over the Windows
debugging engine (DbgEng) COM interfaces.

Modelling conventions (shallow embedding):
- Byte strings are `List Nat` (`Bytes`); Rust `String`/`CString` payloads are
  modelled by the byte sequences handed to the foreign calls (the terminating
  nul written by `CString` is implicit in the marshalling and not part of the
  modelled payload).
- The foreign engine is an `Engine`: one response function per DbgEng entry
  point the facade uses.  Every facade operation returns its Rust result
  together with the ordered list of foreign calls it performed (`FfiCall`),
  so call-trace properties ("performs no foreign call", "single batched
  call") are statable.
- `DEBUG_VALUE` is the engine's tagged union; its union storage is modelled
  as the raw little-endian bit content (`bits : Nat`), every union field
  living at offset 0, so the `I64`/`I32`/`F64`/`F32` accessors read the low
  64/32/64/32 bits.  Float payloads are carried as their bit patterns.
- `String::from_utf8_lossy` is a pure injective-on-byte-level decoding step
  applied last; the string-returning operations are modelled up to that
  decoding, i.e. they return the exact byte sequence the Rust code hands to
  `String::from_utf8_lossy`.
-/

namespace DbgRs

/-- Byte strings: the content of Rust `String` / `CString` / `Vec<u8>` values. -/
abbrev Bytes := List Nat

/-- ASCII encoding of a Lean string literal, used for the fixed message texts
that appear in the source (`format!` literals).  For the ASCII literals in the
source, UTF-8 bytes and code points coincide. -/
def ascii (s : String) : Bytes := s.data.map Char.toNat

/-- Model of `windows::core::Error`: an HRESULT-carrying foreign error value,
wrapped verbatim by the facade (the spec calls the wrapper UnderlyingApiError). -/
inductive WinError where
  | hresult (code : Int)
deriving DecidableEq

/-- Model of `DbgError` (src/error.rs).  Constructor names follow the source;
the spec's names map as: GeneralError = DbgGeneralError, UnderlyingApiError =
WindowsError, InvalidText = InvalidString, IoError = IoError.
`InvalidString` carries the data of `std::ffi::NulError`: the position of the
first interior nul byte and the offending bytes. -/
inductive DbgError where
  | DbgGeneralError (msg : String)
  | InvalidSize (n : Nat)
  | WindowsError (e : WinError)
  | InvalidString (nulPos : Nat) (bytes : Bytes)
  | IoError (msg : String)
deriving DecidableEq

/-- Model of `CString::new(bytes)`: fails with `NulError` (wrapped into
`DbgError::InvalidString` by the `?` conversion in the source) exactly when the
bytes contain a nul byte; on success the marshalled C string carries the bytes
unchanged (the appended terminator is implicit). -/
def cstring_new (s : Bytes) : Except DbgError Bytes :=
  if (0 : Nat) ∈ s then .error (.InvalidString (s.indexOf 0) s) else .ok s

/-- Model of `Vec::resize(n, fill)`: truncate to the first `n` elements, or
grow by appending copies of `fill` up to length `n`. -/
def listResize (l : Bytes) (n : Nat) (fill : Nat) : Bytes :=
  l.take n ++ List.replicate (n - l.length) fill

/-- Model of the engine writing `data` into the front of a caller-supplied
buffer `buf` (in-place FFI write: the buffer keeps its length, bytes past the
written region keep their old content). -/
def writeBytes (buf data : Bytes) : Bytes :=
  data.take buf.length ++ buf.drop (min data.length buf.length)

/- DbgEng constants used by the source (values from the Windows SDK dbgeng.h,
re-exported by the windows crate; only their identities matter here). -/

/-- Output-control scope: broadcast to all attached clients. -/
def DEBUG_OUTCTL_ALL_CLIENTS : Nat := 1

/-- Default command-execution flags. -/
def DEBUG_EXECUTE_DEFAULT : Nat := 0

/-- Output mask for normal-class messages. -/
def DEBUG_OUTPUT_NORMAL : Nat := 1

/-- Output mask for error-class messages. -/
def DEBUG_OUTPUT_ERROR : Nat := 2

/-- Default synthetic-module registration flags. -/
def DEBUG_ADDSYNTHMOD_DEFAULT : Nat := 0

/-- Tag for a 32-bit integer evaluation result. -/
def DEBUG_VALUE_INT32 : Nat := 3

/-- Tag for a 64-bit integer evaluation result. -/
def DEBUG_VALUE_INT64 : Nat := 4

/-- Tag for a 32-bit float evaluation result. -/
def DEBUG_VALUE_FLOAT32 : Nat := 5

/-- Tag for a 64-bit float evaluation result. -/
def DEBUG_VALUE_FLOAT64 : Nat := 6

/-- Model of the engine's `DEBUG_VALUE` tagged union.  `bits` is the raw
little-endian content of the union storage (all union fields start at offset
0), `Ty` is the `Type` tag field (renamed: `Type` is reserved in Lean).
Float fields are represented by their bit patterns. -/
structure DEBUG_VALUE where
  bits : Nat
  Ty : Nat
deriving DecidableEq

/-- Reading union field `Anonymous.Anonymous.I64` (`u64::from_debug_value`):
the low 64 bits of the union storage. -/
def u64_from_debug_value (v : DEBUG_VALUE) : Nat := v.bits % 2 ^ 64

/-- Reading union field `Anonymous.I32` (`u32::from_debug_value`): the low 32
bits of the union storage. -/
def u32_from_debug_value (v : DEBUG_VALUE) : Nat := v.bits % 2 ^ 32

/-- Reading union field `Anonymous.F64` (`f64::from_debug_value`): the low 64
bits of the union storage, as an f64 bit pattern. -/
def f64_from_debug_value (v : DEBUG_VALUE) : Nat := v.bits % 2 ^ 64

/-- Reading union field `Anonymous.F32` (`f32::from_debug_value`): the low 32
bits of the union storage, as an f32 bit pattern. -/
def f32_from_debug_value (v : DEBUG_VALUE) : Nat := v.bits % 2 ^ 32

/-- The four scalar kinds implementing the `DebugValue` trait in the source:
u64, u32, f64, f32. -/
inductive ScalarKind where
  | u64
  | u32
  | f64
  | f32
deriving DecidableEq

/-- Associated constant `DebugValue::VALUE_TYPE` for each impl. -/
def ScalarKind.VALUE_TYPE : ScalarKind → Nat
  | .u64 => DEBUG_VALUE_INT64
  | .u32 => DEBUG_VALUE_INT32
  | .f64 => DEBUG_VALUE_FLOAT64
  | .f32 => DEBUG_VALUE_FLOAT32

/-- Bit width of each scalar kind's payload. -/
def ScalarKind.width : ScalarKind → Nat
  | .u64 => 64
  | .u32 => 32
  | .f64 => 64
  | .f32 => 32

/-- Dispatch of `DebugValue::from_debug_value` over the four impls. -/
def ScalarKind.from_debug_value : ScalarKind → DEBUG_VALUE → Nat
  | .u64, v => u64_from_debug_value v
  | .u32, v => u32_from_debug_value v
  | .f64, v => f64_from_debug_value v
  | .f32, v => f32_from_debug_value v

/-- A `DEBUG_VALUE` holding scalar value `w` stored under kind `k`'s matching
tag: the engine writes `w` (a `k.width`-bit payload) into the union field at
offset 0 and sets the tag to `k.VALUE_TYPE`. -/
def storeScalar (k : ScalarKind) (w : Nat) : DEBUG_VALUE :=
  { bits := w, Ty := k.VALUE_TYPE }

/-- The two-variant module identifier (enum `Module` in the source). -/
inductive Module where
  | Address (base : Nat)
  | Name (name : Bytes)
deriving DecidableEq

/-- The four COM capability interfaces the facade narrows its client to. -/
inductive Iface where
  | IDebugControl3
  | IDebugSymbols3
  | IDebugDataSpaces4
  | IDebugRegisters
deriving DecidableEq

/-- One foreign call into the debugging engine, with the arguments the facade
passes.  `QueryInterface` models `IUnknown::cast::<T>()` (COM interface
narrowing); the others are the DbgEng entry points used by the facade. -/
inductive FfiCall where
  | QueryInterface (iface : Iface)
  | Execute (outctl : Nat) (cmd : Bytes) (flags : Nat)
  | Output (mask : Nat) (text : Bytes)
  | Evaluate (expr : Bytes) (desiredType : Nat)
  | GetOffsetByName (name : Bytes)
  | GetNameByOffset (addr : Nat)
  | RemoveSyntheticModule (base : Nat)
  | GetModuleByModuleName (name : Bytes) (startIndex : Nat)
  | AddSyntheticModule (base : Nat) (size : Nat) (path : Bytes) (name : Bytes) (flags : Nat)
  | ReadVirtual (vaddr : Nat) (bufLen : Nat)
  | ReadMultiByteStringVirtual (addr : Nat) (maxBytes : Nat)
  | GetIndexByName (name : Bytes)
  | GetValues (count : Nat) (indices : List Nat)
deriving DecidableEq

/-- The foreign engine: one response function per DbgEng entry point.  Buffer
out-parameters are modelled as returned data: `GetNameByOffset` yields the
buffer content after the in-place write plus the reported size,
`ReadVirtual` yields the bytes written plus the reported byte count,
`ReadMultiByteStringVirtual` yields the buffer content plus the reported size. -/
structure Engine where
  Execute : Nat → Bytes → Nat → Except WinError Unit
  Output : Nat → Bytes → Except WinError Unit
  Evaluate : Bytes → Nat → Except WinError DEBUG_VALUE
  GetOffsetByName : Bytes → Except WinError Nat
  GetNameByOffset : Nat → Except WinError (Bytes × Nat)
  RemoveSyntheticModule : Nat → Except WinError Unit
  GetModuleByModuleName : Bytes → Nat → Except WinError Nat
  AddSyntheticModule : Nat → Nat → Bytes → Bytes → Nat → Except WinError Unit
  ReadVirtual : Nat → Nat → Except WinError (Bytes × Nat)
  ReadMultiByteStringVirtual : Nat → Nat → Except WinError (Bytes × Nat)
  GetIndexByName : Bytes → Except WinError Nat
  GetValues : Nat → List Nat → Except WinError (List DEBUG_VALUE)

/-- A root client handle (`IUnknown`): what `cast` (COM QueryInterface) to
each capability interface yields — a capability handle id, or failure. -/
structure Client where
  cast : Iface → Except WinError Nat

/-- The facade: the four capability handles obtained from one root client
(struct `Dbg` in the source; handles stand in for the COM interface
pointers). -/
structure Dbg where
  control : Nat
  symbols : Nat
  dataspaces : Nat
  registers : Nat
deriving DecidableEq

/-- Model of `Dbg::new(client)`: narrow the root client to the four
capabilities in the fixed source order control, symbols, dataspaces,
registers, propagating the first `cast` failure via `?` (wrapped into
`DbgError::WindowsError`).  Returns the result together with the trace of
narrowing calls performed. -/
def Dbg.new (client : Client) : Except DbgError Dbg × List FfiCall :=
  match client.cast Iface.IDebugControl3 with
  | .error e => (.error (.WindowsError e), [.QueryInterface .IDebugControl3])
  | .ok c =>
    match client.cast Iface.IDebugSymbols3 with
    | .error e =>
        (.error (.WindowsError e),
         [.QueryInterface .IDebugControl3, .QueryInterface .IDebugSymbols3])
    | .ok s =>
      match client.cast Iface.IDebugDataSpaces4 with
      | .error e =>
          (.error (.WindowsError e),
           [.QueryInterface .IDebugControl3, .QueryInterface .IDebugSymbols3,
            .QueryInterface .IDebugDataSpaces4])
      | .ok d =>
        match client.cast Iface.IDebugRegisters with
        | .error e =>
            (.error (.WindowsError e),
             [.QueryInterface .IDebugControl3, .QueryInterface .IDebugSymbols3,
              .QueryInterface .IDebugDataSpaces4, .QueryInterface .IDebugRegisters])
        | .ok r =>
            (.ok { control := c, symbols := s, dataspaces := d, registers := r },
             [.QueryInterface .IDebugControl3, .QueryInterface .IDebugSymbols3,
              .QueryInterface .IDebugDataSpaces4, .QueryInterface .IDebugRegisters])

/-- Model of `Dbg::exec(command)`: encode the command as a C string (fails
with `InvalidString` before any foreign call if it contains a nul byte), then
invoke `Execute` with `DEBUG_OUTCTL_ALL_CLIENTS` and `DEBUG_EXECUTE_DEFAULT`. -/
def Dbg.exec (E : Engine) (command : Bytes) : Except DbgError Unit × List FfiCall :=
  match cstring_new command with
  | .error e => (.error e, [])
  | .ok cstr =>
    match E.Execute DEBUG_OUTCTL_ALL_CLIENTS cstr DEBUG_EXECUTE_DEFAULT with
    | .error e =>
        (.error (.WindowsError e),
         [.Execute DEBUG_OUTCTL_ALL_CLIENTS cstr DEBUG_EXECUTE_DEFAULT])
    | .ok _ =>
        (.ok (),
         [.Execute DEBUG_OUTCTL_ALL_CLIENTS cstr DEBUG_EXECUTE_DEFAULT])

/-- Model of the private `Dbg::output(mask, str)`: encode the message as a C
string, then invoke the engine's `Output` with the given mask. -/
def Dbg.output (E : Engine) (mask : Nat) (str : Bytes) : Except DbgError Unit × List FfiCall :=
  match cstring_new str with
  | .error e => (.error e, [])
  | .ok cstr =>
    match E.Output mask cstr with
    | .error e => (.error (.WindowsError e), [.Output mask cstr])
    | .ok _ => (.ok (), [.Output mask cstr])

/-- Rendering of `format!(..., err)` with the derived `Debug` impl of
`DbgError`: constructor name, parenthesised payload.  Only its shape (a byte
string embedding the failed error) matters to the claims. -/
def debugFmt : DbgError → Bytes
  | .DbgGeneralError m => ascii "DbgGeneralError(" ++ ascii m ++ ascii ")"
  | .InvalidSize n => ascii "InvalidSize(" ++ ascii (toString n) ++ ascii ")"
  | .WindowsError (.hresult code) =>
      ascii "WindowsError(HRESULT(" ++ ascii (toString code) ++ ascii "))"
  | .InvalidString p _ =>
      ascii "InvalidString(NulError(" ++ ascii (toString p) ++ ascii "))"
  | .IoError m => ascii "IoError(" ++ ascii m ++ ascii ")"

/-- The fallback message `format!("Failed to log message: {:?}", err)` sent to
the error-class output stream when a primary output write fails. -/
def failMsg (err : DbgError) : Bytes :=
  ascii "Failed to log message: " ++ debugFmt err

/-- Model of `Dbg::print(args)`: write `args` to the normal output stream; if
that fails, attempt one error-class fallback write carrying the failure's
debug rendering and discard the fallback's own result.  The function returns
only the foreign-call trace: like the Rust method, it has no failure channel
to the caller. -/
def Dbg.print (E : Engine) (args : Bytes) : List FfiCall :=
  match Dbg.output E DEBUG_OUTPUT_NORMAL args with
  | (.error err, t) => t ++ (Dbg.output E DEBUG_OUTPUT_ERROR (failMsg err)).2
  | (.ok _, t) => t

/-- Model of `Dbg::println(args)`: same as `print` but the primary message is
`format!("\n", args)`, i.e. the text with a line terminator appended. -/
def Dbg.println (E : Engine) (args : Bytes) : List FfiCall :=
  match Dbg.output E DEBUG_OUTPUT_NORMAL (args ++ ascii "\n") with
  | (.error err, t) => t ++ (Dbg.output E DEBUG_OUTPUT_ERROR (failMsg err)).2
  | (.ok _, t) => t

/-- Model of `Dbg::eval::<T>(expr)` for a scalar kind `k`: encode `expr`,
request evaluation tagged with `k.VALUE_TYPE`, and project the returned
`DEBUG_VALUE` through `k`'s extraction rule. -/
def Dbg.eval (E : Engine) (k : ScalarKind) (expr : Bytes) : Except DbgError Nat × List FfiCall :=
  match cstring_new expr with
  | .error e => (.error e, [])
  | .ok cstr =>
    match E.Evaluate cstr k.VALUE_TYPE with
    | .error e => (.error (.WindowsError e), [.Evaluate cstr k.VALUE_TYPE])
    | .ok v => (.ok (k.from_debug_value v), [.Evaluate cstr k.VALUE_TYPE])

/-- Model of `Dbg::get_symbol_address(name)`: encode the name, then a direct
`GetOffsetByName` lookup. -/
def Dbg.get_symbol_address (E : Engine) (name : Bytes) : Except DbgError Nat × List FfiCall :=
  match cstring_new name with
  | .error e => (.error e, [])
  | .ok cstr =>
    match E.GetOffsetByName cstr with
    | .error e => (.error (.WindowsError e), [.GetOffsetByName cstr])
    | .ok addr => (.ok addr, [.GetOffsetByName cstr])

/-- Model of `Dbg::get_symbol_name(addr)`: allocate a 1024-byte buffer, call
`GetNameByOffset` to fill it in place and report the actual size; size 0 is
`InvalidSize(0)`; otherwise `buffer.resize(size - 1, 0)` (truncating to the
first `size - 1` bytes when `size - 1 <= 1024`, growing with zero fill bytes
when `size - 1 > 1024`).  The returned bytes are exactly what the source hands
to `String::from_utf8_lossy`. -/
def Dbg.get_symbol_name (E : Engine) (addr : Nat) : Except DbgError Bytes × List FfiCall :=
  match E.GetNameByOffset addr with
  | .error e => (.error (.WindowsError e), [.GetNameByOffset addr])
  | .ok (buffer, size) =>
    if size = 0 then (.error (.InvalidSize 0), [.GetNameByOffset addr])
    else (.ok (listResize buffer (size - 1) 0), [.GetNameByOffset addr])

/-- Model of `Dbg::remove_synthetic_module(module)`: the Address variant
removes directly; the Name variant encodes the name, resolves it with
`GetModuleByModuleName(name, 0)` to a base address, then removes by that
address. -/
def Dbg.remove_synthetic_module (E : Engine) (module : Module) : Except DbgError Unit × List FfiCall :=
  match module with
  | .Address base =>
    match E.RemoveSyntheticModule base with
    | .error e => (.error (.WindowsError e), [.RemoveSyntheticModule base])
    | .ok _ => (.ok (), [.RemoveSyntheticModule base])
  | .Name name =>
    match cstring_new name with
    | .error e => (.error e, [])
    | .ok cstr =>
      match E.GetModuleByModuleName cstr 0 with
      | .error e => (.error (.WindowsError e), [.GetModuleByModuleName cstr 0])
      | .ok base =>
        match E.RemoveSyntheticModule base with
        | .error e =>
            (.error (.WindowsError e),
             [.GetModuleByModuleName cstr 0, .RemoveSyntheticModule base])
        | .ok _ =>
            (.ok (), [.GetModuleByModuleName cstr 0, .RemoveSyntheticModule base])

/-- Model of `Dbg::read_vaddr(vaddr, buffer)`: one `ReadVirtual` call with the
buffer's length; the engine writes some bytes into the front of the buffer and
reports how many.  Returns (buffer after the call, reported bytes read). -/
def Dbg.read_vaddr (E : Engine) (vaddr : Nat) (buffer : Bytes) : Except DbgError (Bytes × Nat) × List FfiCall :=
  match E.ReadVirtual vaddr buffer.length with
  | .error e => (.error (.WindowsError e), [.ReadVirtual vaddr buffer.length])
  | .ok (data, bytesRead) =>
      (.ok (writeBytes buffer data, bytesRead), [.ReadVirtual vaddr buffer.length])

/-- Model of `Dbg::read_type_vaddr::<T>(vaddr)` for a type `T` of the given
size: size 0 is rejected with `InvalidSize(0)` before any foreign call;
otherwise a zero-initialized scratch buffer of exactly `size` bytes is filled
by delegating to `read_vaddr` (whose returned byte count is discarded) and the
buffer is reinterpreted as `T` by `read_unaligned` — a total function of the
buffer bytes with no alignment precondition on `vaddr`.  The result is the
value's byte representation (the buffer contents). -/
def Dbg.read_type_vaddr (E : Engine) (size : Nat) (vaddr : Nat) : Except DbgError Bytes × List FfiCall :=
  if size = 0 then (.error (.InvalidSize size), [])
  else
    match Dbg.read_vaddr E vaddr (List.replicate size 0) with
    | (.error e, t) => (.error e, t)
    | (.ok (buffer, _bytesRead), t) => (.ok buffer, t)

/-- Model of `Dbg::read_cstr(addr)`: a bounded `ReadMultiByteStringVirtual`
with `max_bytes = 256` into a 256-byte buffer; the engine reports the actual
size including the terminator; size 0 is `InvalidSize(0)`; otherwise
`buffer.resize(size - 1, 0)`.  The returned bytes are exactly what the source
hands to `String::from_utf8_lossy`. -/
def Dbg.read_cstr (E : Engine) (addr : Nat) : Except DbgError Bytes × List FfiCall :=
  match E.ReadMultiByteStringVirtual addr 256 with
  | .error e => (.error (.WindowsError e), [.ReadMultiByteStringVirtual addr 256])
  | .ok (buffer, size) =>
    if size = 0 then (.error (.InvalidSize 0), [.ReadMultiByteStringVirtual addr 256])
    else (.ok (listResize buffer (size - 1) 0), [.ReadMultiByteStringVirtual addr 256])

/-- Model of `Dbg::reg_values(indices)`: one batched `GetValues` call with
`indices.len()` and the index array.  The source creates the output vector
with `Vec::with_capacity(indices.len())` — length 0 — and never calls
`set_len`, so whatever the engine writes through `values.as_mut_ptr()` is not
reflected in the vector's length and the returned vector is empty. -/
def Dbg.reg_values (E : Engine) (indices : List Nat) : Except DbgError (List DEBUG_VALUE) × List FfiCall :=
  match E.GetValues indices.length indices with
  | .error e => (.error (.WindowsError e), [.GetValues indices.length indices])
  | .ok _ => (.ok ([] : List DEBUG_VALUE), [.GetValues indices.length indices])

/-- A concrete engine whose calls all succeed with simple fixed responses;
used to instantiate the general theorems at concrete inputs. -/
def engineOk : Engine where
  Execute := fun _ _ _ => .ok ()
  Output := fun _ _ => .ok ()
  Evaluate := fun _ _ => .ok { bits := 0, Ty := 0 }
  GetOffsetByName := fun _ => .ok 0
  GetNameByOffset := fun _ => .ok (List.replicate 1024 65, 4)
  RemoveSyntheticModule := fun _ => .ok ()
  GetModuleByModuleName := fun _ _ => .ok 4096
  AddSyntheticModule := fun _ _ _ _ _ => .ok ()
  ReadVirtual := fun _ _ => .ok ([7, 7], 2)
  ReadMultiByteStringVirtual := fun _ _ => .ok (List.replicate 256 66, 3)
  GetIndexByName := fun _ => .ok 0
  GetValues := fun _ _ => .ok []

/-- A concrete engine whose normal-masked output writes fail. -/
def engineOutFail : Engine :=
  { engineOk with
    Output := fun mask _ =>
      if mask = DEBUG_OUTPUT_NORMAL then .error (.hresult 1) else .ok () }

/-- A concrete engine whose evaluation returns the 32-bit integer 2 stored
under the matching tag. -/
def engineEval : Engine :=
  { engineOk with Evaluate := fun _ _ => .ok (storeScalar .u32 2) }

/-- A concrete engine reporting a symbol-name size of 1026, larger than the
1024-byte working buffer, with the buffer filled with byte 65. -/
def engineBigName : Engine :=
  { engineOk with GetNameByOffset := fun _ => .ok (List.replicate 1024 65, 1026) }

/-- A concrete root client whose four capability narrowings all succeed. -/
def clientOk : Client where
  cast := fun _ => .ok 5

/-- A concrete root client whose capability narrowings all fail. -/
def clientBad : Client where
  cast := fun _ => .error (.hresult (-1))

/-- C2: for every command string containing an embedded null byte, exec
returns the InvalidText error (DbgError::InvalidString, carrying the nul
position and the offending bytes) and performs no foreign call: the engine's
execute entry point is never invoked. -/
theorem C2_exec_nul_no_ffi (E : Engine) (command : Bytes) (h : (0 : Nat) ∈ command) :
    Dbg.exec E command = (.error (.InvalidString (command.indexOf 0) command), []) := by
  simp [Dbg.exec, cstring_new, h]

/-- Witness for C2 at the concrete command bytes 97, 0, 98. -/
theorem C2_exec_nul_no_ffi_witness :
    Dbg.exec engineOk [97, 0, 98] = (.error (.InvalidString 1 [97, 0, 98]), []) :=
  C2_exec_nul_no_ffi engineOk [97, 0, 98] (by decide)

/-- C1: falsified as stated.  reg_values does perform a single batched
GetValues call with exactly the given indices, but the source builds the
output vector with Vec::with_capacity and never sets its length, so on
success the returned vector is always empty: at the concrete input list of
three indices the result is ok with length 0, not 3. -/
theorem C1_reg_values_length_bug :
    Dbg.reg_values engineOk [0, 1, 2] = (.ok [], [.GetValues 3 [0, 1, 2]]) ∧
      ∀ vs : List DEBUG_VALUE,
        (Dbg.reg_values engineOk [0, 1, 2]).1 = .ok vs →
          vs.length ≠ ([0, 1, 2] : List Nat).length := by
  refine ⟨rfl, fun vs hvs => ?_⟩
  have h0 : vs = ([] : List DEBUG_VALUE) := by
    have : (Except.ok ([] : List DEBUG_VALUE) : Except DbgError (List DEBUG_VALUE)) = .ok vs := hvs
    exact (Except.ok.injEq _ _ ▸ this).symm
  simp [h0]

/-- C4: facade construction narrows the root client to the four capabilities
in the fixed order control, symbols, dataspaces, registers; it aborts with
the wrapped foreign error (UnderlyingApiError = DbgError::WindowsError) at
the first failing narrowing, having performed exactly the narrowing calls up
to and including the failing one; when all four succeed it returns the fully
populated facade; and in every case the result is either a fully populated
facade or a wrapped error, never a partial object. -/
theorem C4_new_atomic (client : Client) :
    (∀ c s d r, client.cast .IDebugControl3 = .ok c →
        client.cast .IDebugSymbols3 = .ok s →
        client.cast .IDebugDataSpaces4 = .ok d →
        client.cast .IDebugRegisters = .ok r →
        Dbg.new client =
          (.ok { control := c, symbols := s, dataspaces := d, registers := r },
           [.QueryInterface .IDebugControl3, .QueryInterface .IDebugSymbols3,
            .QueryInterface .IDebugDataSpaces4, .QueryInterface .IDebugRegisters])) ∧
    (∀ e, client.cast .IDebugControl3 = .error e →
        Dbg.new client = (.error (.WindowsError e), [.QueryInterface .IDebugControl3])) ∧
    (∀ c e, client.cast .IDebugControl3 = .ok c →
        client.cast .IDebugSymbols3 = .error e →
        Dbg.new client =
          (.error (.WindowsError e),
           [.QueryInterface .IDebugControl3, .QueryInterface .IDebugSymbols3])) ∧
    (∀ c s e, client.cast .IDebugControl3 = .ok c →
        client.cast .IDebugSymbols3 = .ok s →
        client.cast .IDebugDataSpaces4 = .error e →
        Dbg.new client =
          (.error (.WindowsError e),
           [.QueryInterface .IDebugControl3, .QueryInterface .IDebugSymbols3,
            .QueryInterface .IDebugDataSpaces4])) ∧
    (∀ c s d e, client.cast .IDebugControl3 = .ok c →
        client.cast .IDebugSymbols3 = .ok s →
        client.cast .IDebugDataSpaces4 = .ok d →
        client.cast .IDebugRegisters = .error e →
        Dbg.new client =
          (.error (.WindowsError e),
           [.QueryInterface .IDebugControl3, .QueryInterface .IDebugSymbols3,
            .QueryInterface .IDebugDataSpaces4, .QueryInterface .IDebugRegisters])) ∧
    ((∃ dbg, (Dbg.new client).1 = .ok dbg) ∨
      (∃ e, (Dbg.new client).1 = .error (.WindowsError e))) := by
  refine ⟨?_, ?_, ?_, ?_, ?_, ?_⟩
  · intro c s d r hc hs hd hr
    simp [Dbg.new, hc, hs, hd, hr]
  · intro e hc
    simp [Dbg.new, hc]
  · intro c e hc hs
    simp [Dbg.new, hc, hs]
  · intro c s e hc hs hd
    simp [Dbg.new, hc, hs, hd]
  · intro c s d e hc hs hd hr
    simp [Dbg.new, hc, hs, hd, hr]
  · rcases hc : client.cast .IDebugControl3 with e | c
    · exact .inr ⟨e, by simp [Dbg.new, hc]⟩
    rcases hs : client.cast .IDebugSymbols3 with e | s
    · exact .inr ⟨e, by simp [Dbg.new, hc, hs]⟩
    rcases hd : client.cast .IDebugDataSpaces4 with e | d
    · exact .inr ⟨e, by simp [Dbg.new, hc, hs, hd]⟩
    rcases hr : client.cast .IDebugRegisters with e | r
    · exact .inr ⟨e, by simp [Dbg.new, hc, hs, hd, hr]⟩
    exact .inl ⟨{ control := c, symbols := s, dataspaces := d, registers := r },
      by simp [Dbg.new, hc, hs, hd, hr]⟩

/-- Witness for C4 at a client whose narrowings all succeed and at one whose
first narrowing fails. -/
theorem C4_new_atomic_witness :
    Dbg.new clientOk =
      (.ok { control := 5, symbols := 5, dataspaces := 5, registers := 5 },
       [.QueryInterface .IDebugControl3, .QueryInterface .IDebugSymbols3,
        .QueryInterface .IDebugDataSpaces4, .QueryInterface .IDebugRegisters]) ∧
    Dbg.new clientBad =
      (.error (.WindowsError (.hresult (-1))), [.QueryInterface .IDebugControl3]) :=
  ⟨(C4_new_atomic clientOk).1 5 5 5 5 rfl rfl rfl rfl,
   (C4_new_atomic clientBad).2.1 (.hresult (-1)) rfl⟩

/-- C5: print and println have no failure channel to the caller (their model
returns only the call trace).  If the primary normal-masked write fails, the
trace is the primary attempt followed by exactly the calls of one fallback
write whose message is the fixed prefix followed by the failure's debug
rendering; if the primary write succeeds, only its own calls happen.  The
fallback's own outcome does not influence the result (only its attempted
call trace appears).  Every output attempt performs at most one foreign
call, tagged with its mask and carrying its message unchanged; println is
print of the text with a line terminator appended, while print writes the
text unchanged. -/
theorem C5_print_println_spec (E : Engine) (args : Bytes) :
    (∀ err, (Dbg.output E DEBUG_OUTPUT_NORMAL args).1 = .error err →
        Dbg.print E args =
          (Dbg.output E DEBUG_OUTPUT_NORMAL args).2 ++
            (Dbg.output E DEBUG_OUTPUT_ERROR
              (ascii "Failed to log message: " ++ debugFmt err)).2) ∧
    (∀ u, (Dbg.output E DEBUG_OUTPUT_NORMAL args).1 = .ok u →
        Dbg.print E args = (Dbg.output E DEBUG_OUTPUT_NORMAL args).2) ∧
    Dbg.println E args = Dbg.print E (args ++ ascii "\n") ∧
    (∀ mask msg, (Dbg.output E mask msg).2.length ≤ 1 ∧
        ∀ call ∈ (Dbg.output E mask msg).2, call = .Output mask msg) := by
  refine ⟨?_, ?_, ?_, ?_⟩
  · intro err herr
    cases hout : Dbg.output E DEBUG_OUTPUT_NORMAL args with
    | mk res t =>
      cases res with
      | error e =>
          have he : e = err := by
            have := hout ▸ herr
            simpa using this
          subst he
          simp [Dbg.print, hout, failMsg]
      | ok u => simp [hout] at herr
  · intro u hok
    cases hout : Dbg.output E DEBUG_OUTPUT_NORMAL args with
    | mk res t =>
      cases res with
      | error e => simp [hout] at hok
      | ok v => simp [Dbg.print, hout]
  · unfold Dbg.println Dbg.print
    rfl
  · intro mask msg
    by_cases h0 : (0 : Nat) ∈ msg
    · simp [Dbg.output, cstring_new, h0]
    · cases hout : E.Output mask msg <;>
        simp [Dbg.output, cstring_new, h0, hout]

/-- Witness for C5 at concrete inputs: a succeeding engine and one whose
normal-masked write fails. -/
theorem C5_print_println_spec_witness :
    Dbg.print engineOk (ascii "hi") = [.Output DEBUG_OUTPUT_NORMAL (ascii "hi")] ∧
    Dbg.print engineOutFail (ascii "hi") =
      [.Output DEBUG_OUTPUT_NORMAL (ascii "hi"),
       .Output DEBUG_OUTPUT_ERROR
         (ascii "Failed to log message: " ++ debugFmt (.WindowsError (.hresult 1)))] :=
  ⟨((C5_print_println_spec engineOk (ascii "hi")).2.1 () rfl).trans rfl,
   ((C5_print_println_spec engineOutFail (ascii "hi")).1
      (.WindowsError (.hresult 1)) rfl).trans rfl⟩

/-- C6: for each of the four scalar kinds, eval encodes the expression,
requests evaluation tagged with the kind's associated engine type
(VALUE_TYPE), and projects the result through the kind's extraction rule,
so a value stored in the tagged union under the matching tag is returned
exactly (round-trip through the tagged-union encoding). -/
theorem C6_eval_roundtrip (E : Engine) (k : ScalarKind) (expr : Bytes) (w : Nat)
    (hnul : (0 : Nat) ∉ expr) (hw : w < 2 ^ k.width)
    (hE : E.Evaluate expr k.VALUE_TYPE = .ok (storeScalar k w)) :
    Dbg.eval E k expr = (.ok w, [.Evaluate expr k.VALUE_TYPE]) ∧
      k.from_debug_value (storeScalar k w) = w := by
  have hrt : k.from_debug_value (storeScalar k w) = w := by
    cases k <;> exact Nat.mod_eq_of_lt hw
  refine ⟨?_, hrt⟩
  simp [Dbg.eval, cstring_new, hnul, hE, hrt]

/-- Witness for C6: the 32-bit integer 2 round-trips through evaluation at a
concrete engine. -/
theorem C6_eval_roundtrip_witness :
    Dbg.eval engineEval .u32 (ascii "2") =
      (.ok 2, [.Evaluate (ascii "2") (ScalarKind.VALUE_TYPE .u32)]) ∧
      ScalarKind.from_debug_value .u32 (storeScalar .u32 2) = 2 :=
  C6_eval_roundtrip engineEval .u32 (ascii "2") 2 (by decide) (by decide) rfl

/-- C3 counterexample: the claim asserts that for a reported size s larger
than the 1024-byte working buffer the result is the first s - 1 bytes of the
filled buffer; with the engine reporting size 1026 over a buffer of 1024
bytes of value 65, the code instead grows the buffer, so the result is not
ok of the first 1025 bytes of the filled buffer (which are just its 1024
bytes). -/
theorem C3_get_symbol_name_counterexample :
    (Dbg.get_symbol_name engineBigName 7).1 ≠
      .ok ((List.replicate 1024 (65 : Nat)).take (1026 - 1)) := by
  intro h
  have h1 : (Dbg.get_symbol_name engineBigName 7).1 =
      .ok (listResize (List.replicate 1024 (65 : Nat)) (1026 - 1) 0) := rfl
  rw [h1] at h
  injection h with h2
  have h3 := congrArg List.length h2
  rw [listResize] at h3
  simp only [List.length_append, List.length_take, List.length_replicate] at h3
  omega

/-- C3 amended: when the GetNameByOffset call succeeds over the 1024-byte
working buffer with reported size s, size 0 yields InvalidSize(0); for
0 < s the result is the first min(s - 1, 1024) bytes of the filled buffer
followed by s - 1 - 1024 zero fill bytes (no fill bytes when s - 1 does not
exceed the buffer length), these being exactly the bytes handed to the lossy
text decoding; a single foreign call is performed. -/
theorem C3_get_symbol_name_amended (E : Engine) (addr : Nat) (buffer : Bytes) (size : Nat)
    (hlen : buffer.length = 1024)
    (hE : E.GetNameByOffset addr = .ok (buffer, size)) :
    (size = 0 →
      Dbg.get_symbol_name E addr = (.error (.InvalidSize 0), [.GetNameByOffset addr])) ∧
    (0 < size →
      Dbg.get_symbol_name E addr =
        (.ok (buffer.take (size - 1) ++ List.replicate (size - 1 - 1024) 0),
         [.GetNameByOffset addr])) := by
  constructor
  · intro h0
    simp [Dbg.get_symbol_name, hE, h0]
  · intro hpos
    have hne : size ≠ 0 := Nat.pos_iff_ne_zero.mp hpos
    simp [Dbg.get_symbol_name, hE, hne, listResize, hlen]

/-- Witness for C3 at a concrete engine reporting size 4 with the buffer
filled with byte 65. -/
theorem C3_get_symbol_name_amended_witness :
    Dbg.get_symbol_name engineOk 7 =
      (.ok ((List.replicate 1024 (65 : Nat)).take (4 - 1) ++
        List.replicate (4 - 1 - 1024) 0),
       [.GetNameByOffset 7]) :=
  (C3_get_symbol_name_amended engineOk 7 (List.replicate 1024 65) 4
    (List.length_replicate 1024 65) rfl).2 (by norm_num)

/-- C7: read_cstr performs a single bounded read requesting at most 256
bytes; when the engine responds over the 256-byte buffer with a reported
size (including terminator) within the bound, size 0 yields InvalidSize(0)
rather than an empty string, and a positive size yields the first size - 1
bytes of the buffer (terminator dropped), these being exactly the bytes
handed to the lossy text decoding. -/
theorem C7_read_cstr_bounded (E : Engine) (addr : Nat) (buffer : Bytes) (size : Nat)
    (hlen : buffer.length = 256) (hsize : size ≤ 256)
    (hE : E.ReadMultiByteStringVirtual addr 256 = .ok (buffer, size)) :
    (Dbg.read_cstr E addr).2 = [.ReadMultiByteStringVirtual addr 256] ∧
    (size = 0 → (Dbg.read_cstr E addr).1 = .error (.InvalidSize 0)) ∧
    (0 < size → (Dbg.read_cstr E addr).1 = .ok (buffer.take (size - 1))) := by
  refine ⟨?_, ?_, ?_⟩
  · by_cases h0 : size = 0 <;> simp [Dbg.read_cstr, hE, h0]
  · intro h0
    simp [Dbg.read_cstr, hE, h0]
  · intro hpos
    have hne : size ≠ 0 := Nat.pos_iff_ne_zero.mp hpos
    have hz : size - 1 - buffer.length = 0 := by omega
    simp [Dbg.read_cstr, hE, hne, listResize, hz]

/-- Witness for C7 at a concrete engine reporting size 3 over a buffer of
byte 66. -/
theorem C7_read_cstr_bounded_witness :
    (Dbg.read_cstr engineOk 5).2 = [.ReadMultiByteStringVirtual 5 256] ∧
    (Dbg.read_cstr engineOk 5).1 = .ok ((List.replicate 256 (66 : Nat)).take (3 - 1)) := by
  have h := C7_read_cstr_bounded engineOk 5 (List.replicate 256 66) 3
    (List.length_replicate 256 66) (by norm_num) rfl
  exact ⟨h.1, h.2.2 (by norm_num)⟩

/-- Helper: read_vaddr on a zero-initialized buffer of the given size, when
the engine call succeeds. -/
theorem read_vaddr_replicate_ok (E : Engine) (vaddr size : Nat) (data : Bytes) (n : Nat)
    (hE : E.ReadVirtual vaddr size = .ok (data, n)) :
    Dbg.read_vaddr E vaddr (List.replicate size 0) =
      (.ok (writeBytes (List.replicate size 0) data, n), [.ReadVirtual vaddr size]) := by
  unfold Dbg.read_vaddr
  rw [List.length_replicate, hE]

/-- Helper: read_vaddr on a zero-initialized buffer of the given size, when
the engine call fails. -/
theorem read_vaddr_replicate_error (E : Engine) (vaddr size : Nat) (e : WinError)
    (hE : E.ReadVirtual vaddr size = .error e) :
    Dbg.read_vaddr E vaddr (List.replicate size 0) =
      (.error (.WindowsError e), [.ReadVirtual vaddr size]) := by
  unfold Dbg.read_vaddr
  rw [List.length_replicate, hE]

/-- C8: read_type_vaddr for a type of size 0 fails with InvalidSize(0)
before any foreign call; for positive size it allocates a zero-initialized
scratch buffer of exactly that size, delegates to read_vaddr at the given
address (same calls, result projected from read_vaddr's filled buffer), and
on engine success returns ok of the filled buffer reinterpreted as the value
by a total unaligned read — for every address, aligned or not. -/
theorem C8_read_type_vaddr_delegates (E : Engine) (size vaddr : Nat) :
    (size = 0 → Dbg.read_type_vaddr E size vaddr = (.error (.InvalidSize 0), [])) ∧
    (0 < size →
      (Dbg.read_type_vaddr E size vaddr).2 =
        (Dbg.read_vaddr E vaddr (List.replicate size 0)).2 ∧
      (Dbg.read_type_vaddr E size vaddr).1 =
        (Dbg.read_vaddr E vaddr (List.replicate size 0)).1.map Prod.fst ∧
      (∀ data n, E.ReadVirtual vaddr size = .ok (data, n) →
        (Dbg.read_type_vaddr E size vaddr).1 =
          .ok (writeBytes (List.replicate size 0) data))) := by
  constructor
  · intro h0
    subst h0
    simp [Dbg.read_type_vaddr]
  · intro hpos
    have hne : size ≠ 0 := Nat.pos_iff_ne_zero.mp hpos
    cases hE : E.ReadVirtual vaddr size with
    | error e =>
      have hrv := read_vaddr_replicate_error E vaddr size e hE
      refine ⟨?_, ?_, ?_⟩
      · simp [Dbg.read_type_vaddr, hne, hrv]
      · simp [Dbg.read_type_vaddr, hne, hrv, Except.map]
      · intro data n h
        exact Except.noConfusion h
    | ok dn =>
      obtain ⟨data, n⟩ := dn
      have hrv := read_vaddr_replicate_ok E vaddr size data n hE
      refine ⟨?_, ?_, ?_⟩
      · simp [Dbg.read_type_vaddr, hne, hrv]
      · simp [Dbg.read_type_vaddr, hne, hrv, Except.map]
      · intro data2 n2 h
        injection h with h'
        injection h' with h1 h2
        subst h1
        simp [Dbg.read_type_vaddr, hne, hrv]

/-- Witness for C8: size 0 is rejected with no call; size 8 delegates and
succeeds at a concrete engine. -/
theorem C8_read_type_vaddr_delegates_witness :
    Dbg.read_type_vaddr engineOk 0 3 = (.error (.InvalidSize 0), []) ∧
    (Dbg.read_type_vaddr engineOk 8 3).1 = .ok (writeBytes (List.replicate 8 0) [7, 7]) :=
  ⟨(C8_read_type_vaddr_delegates engineOk 0 3).1 rfl,
   ((C8_read_type_vaddr_delegates engineOk 8 3).2 (by norm_num)).2.2 [7, 7] 2 rfl⟩

/-- C10: read_type_vaddr discards the byte count reported by the raw read:
if the engine succeeds but writes only k of the size requested bytes, the
operation still returns ok, with the value's trailing size - k bytes coming
from the zero-initialized scratch buffer. -/
theorem C10_read_type_vaddr_partial (E : Engine) (size vaddr k : Nat) (data : Bytes)
    (hpos : 0 < size) (hk : k < size) (hdata : data.length = k)
    (hE : E.ReadVirtual vaddr size = .ok (data, k)) :
    (Dbg.read_type_vaddr E size vaddr).1 = .ok (data ++ List.replicate (size - k) 0) := by
  have hne : size ≠ 0 := Nat.pos_iff_ne_zero.mp hpos
  have hrv := read_vaddr_replicate_ok E vaddr size data k hE
  have hwb : writeBytes (List.replicate size 0) data =
      data ++ List.replicate (size - k) 0 := by
    unfold writeBytes
    rw [List.length_replicate, hdata, List.take_of_length_le (by omega),
      List.drop_replicate]
    congr 2
    omega
  simp [Dbg.read_type_vaddr, hne, hrv, hwb]

/-- Witness for C10 at a concrete engine writing only 2 of 8 requested
bytes. -/
theorem C10_read_type_vaddr_partial_witness :
    (Dbg.read_type_vaddr engineOk 8 9).1 = .ok ([7, 7] ++ List.replicate (8 - 2) 0) :=
  C10_read_type_vaddr_partial engineOk 8 9 2 [7, 7] (by norm_num) (by norm_num) rfl rfl

/-- C9: removing by the Address variant calls the engine's removal with that
address directly (that single call, whatever its outcome); removing by the
Name variant, once the name resolves to a base address, performs exactly the
same removal call and yields exactly the same result that the Address
variant with that resolved base would. -/
theorem C9_remove_module_variant_equiv (E : Engine) (base : Nat) (name : Bytes) (b : Nat) :
    (Dbg.remove_synthetic_module E (.Address base)).2 = [.RemoveSyntheticModule base] ∧
    ((0 : Nat) ∉ name → E.GetModuleByModuleName name 0 = .ok b →
      Dbg.remove_synthetic_module E (.Name name) =
        ((Dbg.remove_synthetic_module E (.Address b)).1,
         .GetModuleByModuleName name 0 ::
           (Dbg.remove_synthetic_module E (.Address b)).2)) := by
  constructor
  · cases h : E.RemoveSyntheticModule base <;>
      simp [Dbg.remove_synthetic_module, h]
  · intro hnul hlook
    cases h : E.RemoveSyntheticModule b <;>
      simp [Dbg.remove_synthetic_module, cstring_new, hnul, hlook, h]

/-- Witness for C9 at a concrete engine resolving the name to base 4096. -/
theorem C9_remove_module_variant_equiv_witness :
    Dbg.remove_synthetic_module engineOk (.Name (ascii "mod")) =
      ((Dbg.remove_synthetic_module engineOk (.Address 4096)).1,
       .GetModuleByModuleName (ascii "mod") 0 ::
         (Dbg.remove_synthetic_module engineOk (.Address 4096)).2) :=
  (C9_remove_module_variant_equiv engineOk 0 (ascii "mod") 4096).2 (by decide) rfl

end DbgRs
